import Mathlib

/-!
Verification development for the erdtree configuration-resolution engine
(`src/render/context/mod.rs`) and entry-snapshot builder
(`src/render/tree/node/mod.rs`).

Platform strings (`OsString`) are modelled as raw sequences of natural
numbers (code units). Valid text is the image of `osStr`; sequences outside
that image model byte sequences that are not valid text.

The argument-grammar engine (the external `clap` crate) is not part of this
repository; it is modelled from the spec's Grammar Engine boundary: declare
named parameters with type, arity, default and inter-parameter dependency
constraints; parse a token sequence against that grammar; per the spec the
intermediate parses only extract raw per-identifier tokens while the final
re-parse is the only one whose dependency-validation errors are surfaced.
The parameter declarations themselves (identifiers, which take values,
defaults, `requires` constraints, flag spellings) are taken from the
`#[arg(...)]` attributes in `src/render/context/mod.rs`.
-/

set_option autoImplicit false

/-- Raw platform string: a sequence of code units, byte-preserving. -/
abbrev OsString := List Nat

/-- Embed a Lean string as an `OsString` (its code points). -/
def osStr (s : String) : OsString := s.data.map Char.toNat

/-- The parameter identifiers declared by the `Context` struct
    (`src/render/context/mod.rs`, field order preserved). -/
inductive ArgId where
  | dir
  | disk_usage
  | hidden
  | no_git
  | no_ignore
  | follow
  | icons
  | level
  | long
  | pattern
  | glob
  | iglob
  | prune
  | scale
  | report
  | human
  | file_name
  | sort
  | dirs_first
  | threads
  | unit
  | completions
  | dirs_only
  | no_color
  | no_config
  | suppress_size
deriving DecidableEq, Repr

/-- All declared identifiers, in struct declaration order. -/
def allIds : List ArgId :=
  [.dir, .disk_usage, .hidden, .no_git, .no_ignore, .follow, .icons, .level,
   .long, .pattern, .glob, .iglob, .prune, .scale, .report, .human,
   .file_name, .sort, .dirs_first, .threads, .unit, .completions,
   .dirs_only, .no_color, .no_config, .suppress_size]

/-- The snake_case identifier string of each parameter (the clap `Id`). -/
def ArgId.name : ArgId → OsString
  | .dir => osStr "dir"
  | .disk_usage => osStr "disk_usage"
  | .hidden => osStr "hidden"
  | .no_git => osStr "no_git"
  | .no_ignore => osStr "no_ignore"
  | .follow => osStr "follow"
  | .icons => osStr "icons"
  | .level => osStr "level"
  | .long => osStr "long"
  | .pattern => osStr "pattern"
  | .glob => osStr "glob"
  | .iglob => osStr "iglob"
  | .prune => osStr "prune"
  | .scale => osStr "scale"
  | .report => osStr "report"
  | .human => osStr "human"
  | .file_name => osStr "file_name"
  | .sort => osStr "sort"
  | .dirs_first => osStr "dirs_first"
  | .threads => osStr "threads"
  | .unit => osStr "unit"
  | .completions => osStr "completions"
  | .dirs_only => osStr "dirs_only"
  | .no_color => osStr "no_color"
  | .no_config => osStr "no_config"
  | .suppress_size => osStr "suppress_size"

/-- Kebab spelling of an identifier: underscores replaced by hyphens
    (mirrors `id.replace('_', "-")` in `Context::pick_args_from`). -/
def kebabOf (id : ArgId) : OsString :=
  id.name.map (fun c => if c = 95 then 45 else c)

/-- Does the parameter consume a value token? (`dir` is positional; the
    remaining value parameters are declared with a value type in the
    struct; plain `bool` fields are presence/absence switches.) -/
def ArgId.takesValue : ArgId → Bool
  | .dir | .disk_usage | .level | .pattern | .scale | .sort | .threads
  | .unit | .completions => true
  | _ => false

/-- Declared inter-parameter dependencies, from the `requires = "..."`
    attributes in the struct. -/
def requiresList : List (ArgId × ArgId) :=
  [(.no_git, .hidden), (.glob, .pattern), (.iglob, .pattern),
   (.human, .report), (.file_name, .report)]

/-- Short flag spellings declared on the struct (`short`, `short = 'x'`). -/
def shortOf : ArgId → Option Nat
  | .disk_usage => some 100
  | .hidden => some 46
  | .no_ignore => some 105
  | .follow => some 102
  | .icons => some 73
  | .level => some 76
  | .long => some 108
  | .pattern => some 112
  | .prune => some 80
  | .scale => some 110
  | .report => some 114
  | .sort => some 115
  | .threads => some 116
  | .unit => some 117
  | _ => none

/-- Default value tokens rendered by the grammar: boolean switches default
    to the literal "false" (which is why `pick_args_from` filters it);
    `scale` defaults to 2 and `threads` to 3 (declared in the struct);
    the enum-valued parameters render their declared defaults.
    Modelled from the spec: the enum modules (`DiskUsage`, `SortType`,
    `PrefixKind`) are outside `src/`; only the existence and spelling of a
    default matters here. -/
def defaultTokensOf : ArgId → Option (List OsString)
  | .dir | .level | .pattern | .completions => none
  | .disk_usage => some [osStr "logical"]
  | .scale => some [osStr "2"]
  | .sort => some [osStr "none"]
  | .threads => some [osStr "3"]
  | .unit => some [osStr "bin"]
  | _ => some [osStr "false"]

/-- Where a parsed parameter value came from (clap's `ValueSource`). -/
inductive ValueSource where
  | commandLine
  | defaultValue
deriving DecidableEq, Repr

/-- One parsed entry: the raw value tokens of an identifier plus their
    source. -/
structure MatchEntry where
  values : List OsString
  source : ValueSource
deriving DecidableEq, Repr

/-- Parsed matches: identifier-keyed association list (clap's
    `ArgMatches`), in insertion order. -/
abbrev Matches := List (ArgId × MatchEntry)

/-- First entry for an identifier, if any (clap's `try_get_raw` /
    `value_source` lookup). -/
def findId (m : Matches) (id : ArgId) : Option MatchEntry :=
  match m with
  | [] => none
  | p :: rest => if p.1 = id then some p.2 else findId rest id

/-- Structured grammar errors. Modelled from the spec: the Grammar Engine
    reports structured errors (unknown flag, bad type, dependency
    violation). -/
inductive ParseError where
  | unknownArg (t : OsString)
  | missingValue (id : ArgId)
  | repeated (id : ArgId)
  | missingRequired (a b : ArgId)
  | badValue (id : ArgId) (v : OsString)
deriving DecidableEq, Repr

/-- Error taxonomy of the resolution engine (`context::error::Error`,
    whose module is outside `src/`; variants modelled from the spec's
    taxonomy: argument-parse, configuration, and pattern errors). -/
inductive Error where
  | argParse (e : ParseError)
  | config (e : ParseError)
  | regexDisabled
  | patternNotProvided
  | regexError
deriving DecidableEq, Repr

/-- Record an identifier occurrence while parsing. With self-override
    permitted a repeat replaces the previous value; otherwise a repeat is
    an error. -/
def setArg (ov : Bool) (m : Matches) (id : ArgId) (vals : List OsString) :
    Except ParseError Matches :=
  match findId m id with
  | some _ =>
      if ov then
        .ok (m.map (fun p => if p.1 = id then (id, ⟨vals, .commandLine⟩) else p))
      else
        .error (.repeated id)
  | none => .ok (m ++ [(id, ⟨vals, .commandLine⟩)])

/-- Find the parameter owning a long flag spelling. The positional `dir`
    has no long flag. -/
def findLong (s : OsString) : Option ArgId :=
  (allIds.filter (fun id => id ≠ .dir ∧ kebabOf id = s)).head?

/-- Find the parameter owning a short flag character. -/
def findShort (c : Nat) : Option ArgId :=
  (allIds.filter (fun id => shortOf id = some c)).head?

/-- Modelled from the spec: the Grammar Engine's token-sequence parse.
    A `--name` token selects a long flag; a `-x` token a short flag; a
    value-taking parameter consumes the next token; any other token is the
    positional target directory. Only raw per-identifier tokens are
    extracted here; dependency validation is separate (`validate`). -/
def parseTokens (ov : Bool) : List OsString → Matches → Except ParseError Matches
  | [], m => .ok m
  | t :: rest, m =>
      if osStr "--" <+: t ∧ t.length > 2 then
        match findLong (t.drop 2) with
        | none => .error (.unknownArg t)
        | some id =>
            if id.takesValue then
              match rest with
              | [] => .error (.missingValue id)
              | v :: rest' =>
                  match setArg ov m id [v] with
                  | .error e => .error e
                  | .ok m' => parseTokens ov rest' m'
            else
              match setArg ov m id [osStr "true"] with
              | .error e => .error e
              | .ok m' => parseTokens ov rest m'
      else if t.length = 2 ∧ t.head? = some 45 then
        match findShort (t.getD 1 0) with
        | none => .error (.unknownArg t)
        | some id =>
            if id.takesValue then
              match rest with
              | [] => .error (.missingValue id)
              | v :: rest' =>
                  match setArg ov m id [v] with
                  | .error e => .error e
                  | .ok m' => parseTokens ov rest' m'
            else
              match setArg ov m id [osStr "true"] with
              | .error e => .error e
              | .ok m' => parseTokens ov rest m'
      else
        match setArg ov m .dir [t] with
        | .error e => .error e
        | .ok m' => parseTokens ov rest m'

/-- Insert grammar defaults for every identifier absent from the matches
    (clap inserts rendered defaults after parsing). -/
def addDefaults (m : Matches) : Matches :=
  allIds.foldl
    (fun acc id =>
      match findId acc id with
      | some _ => acc
      | none =>
          match defaultTokensOf id with
          | some vs => acc ++ [(id, ⟨vs, .defaultValue⟩)]
          | none => acc)
    m

/-- Raw parse: extract per-identifier tokens and fill in defaults. -/
def parseRaw (ov : Bool) (ts : List OsString) : Except ParseError Matches :=
  match parseTokens ov ts [] with
  | .error e => .error e
  | .ok m => .ok (addDefaults m)

/-- An identifier counts as present for dependency checking exactly when it
    was supplied in the token sequence (source = command line); rendered
    defaults do not satisfy a dependency. -/
def presentCL (m : Matches) (id : ArgId) : Bool :=
  match findId m id with
  | some e => e.source = .commandLine
  | none => false

/-- Dependency validation: every `requires` constraint whose left side is
    present demands its right side present. -/
def validate (m : Matches) : Except ParseError Unit :=
  match requiresList.find? (fun p => presentCL m p.1 ∧ ¬ presentCL m p.2) with
  | some p => .error (.missingRequired p.1 p.2)
  | none => .ok ()

/-- Disk-usage mode. Modelled from the spec: `{logical, physical}`
    (the `disk_usage` module is outside `src/`). -/
inductive DiskUsage where
  | logical
  | physical
deriving DecidableEq, Repr

/-- Unit system. Modelled from the spec: `{binary, SI}`
    (the `units` module is outside `src/`). -/
inductive PrefixKind where
  | bin
  | si
deriving DecidableEq, Repr

/-- Sort order. Modelled from the spec: sort mode with a grammar default
    (the `sort` module is outside `src/`; the identities of the variants
    are irrelevant to the claims). -/
inductive SortType where
  | noSort
  | name
  | size
deriving DecidableEq, Repr

/-- Parse a decimal numeral from a raw token. -/
def osToNat (s : OsString) : Option Nat :=
  if s ≠ [] ∧ s.all (fun c => 48 ≤ c ∧ c ≤ 57) then
    some (s.foldl (fun a c => a * 10 + (c - 48)) 0)
  else
    none

/-- Modelled from the spec: the environment capability "stdin is an
    interactive terminal", probed once at process start. -/
def stdinIsTty : Bool := true

/-- Modelled from the spec: the environment capability "stdout is an
    interactive terminal", probed once at process start. -/
def stdoutIsTty : Bool := true

/-- The resolved Parameter Set: the `Context` struct of
    `src/render/context/mod.rs`, field for field. -/
structure Ctx where
  dir : Option OsString
  disk_usage : DiskUsage
  hidden : Bool
  no_git : Bool
  no_ignore : Bool
  follow : Bool
  icons : Bool
  level : Option Nat
  long : Bool
  pattern : Option OsString
  glob : Bool
  iglob : Bool
  prune : Bool
  scale : Nat
  report : Bool
  human : Bool
  file_name : Bool
  sort : SortType
  dirs_first : Bool
  threads : Nat
  unit : PrefixKind
  completions : Option OsString
  dirs_only : Bool
  no_color : Bool
  no_config : Bool
  suppress_size : Bool
  stdin_is_tty : Bool
  stdout_is_tty : Bool
  max_du_width : Nat
  max_nlink_width : Nat
deriving DecidableEq, Repr

/-- Read a boolean switch out of the matches: set exactly when its stored
    value token is the literal "true". -/
def flagOf (m : Matches) (id : ArgId) : Bool :=
  match findId m id with
  | some e => decide (e.values.head? = some (osStr "true"))
  | none => false

/-- Read an optional raw value out of the matches. -/
def rawOf (m : Matches) (id : ArgId) : Option OsString :=
  (findId m id).bind (fun e => e.values.head?)

/-- Read a numeric value, with the grammar default as fallback. -/
def natOf (m : Matches) (id : ArgId) (dflt : Nat) : Except ParseError Nat :=
  match rawOf m id with
  | none => .ok dflt
  | some v =>
      match osToNat v with
      | some n => .ok n
      | none => .error (.badValue id v)

/-- Read an optional numeric value. -/
def natOptOf (m : Matches) (id : ArgId) : Except ParseError (Option Nat) :=
  match rawOf m id with
  | none => .ok none
  | some v =>
      match osToNat v with
      | some n => .ok (some n)
      | none => .error (.badValue id v)

/-- Decode the disk-usage enum value. -/
def diskUsageOf (m : Matches) : Except ParseError DiskUsage :=
  match rawOf m .disk_usage with
  | none => .ok .logical
  | some v =>
      if v = osStr "logical" then .ok .logical
      else if v = osStr "physical" then .ok .physical
      else .error (.badValue .disk_usage v)

/-- Decode the sort enum value. -/
def sortOf (m : Matches) : Except ParseError SortType :=
  match rawOf m .sort with
  | none => .ok .noSort
  | some v =>
      if v = osStr "none" then .ok .noSort
      else if v = osStr "name" then .ok .name
      else if v = osStr "size" then .ok .size
      else .error (.badValue .sort v)

/-- Decode the unit-system enum value. -/
def unitOf (m : Matches) : Except ParseError PrefixKind :=
  match rawOf m .unit with
  | none => .ok .bin
  | some v =>
      if v = osStr "bin" then .ok .bin
      else if v = osStr "si" then .ok .si
      else .error (.badValue .unit v)

/-- Convert validated matches into the typed Parameter Set (clap's
    `from_arg_matches`); the skipped fields take the probed terminal
    capabilities and zeroed display widths, as declared in the struct. -/
def fromArgMatches (m : Matches) : Except ParseError Ctx := do
  let du ← diskUsageOf m
  let lv ← natOptOf m .level
  let sc ← natOf m .scale 2
  let so ← sortOf m
  let th ← natOf m .threads 3
  let un ← unitOf m
  return {
    dir := rawOf m .dir
    disk_usage := du
    hidden := flagOf m .hidden
    no_git := flagOf m .no_git
    no_ignore := flagOf m .no_ignore
    follow := flagOf m .follow
    icons := flagOf m .icons
    level := lv
    long := flagOf m .long
    pattern := rawOf m .pattern
    glob := flagOf m .glob
    iglob := flagOf m .iglob
    prune := flagOf m .prune
    scale := sc
    report := flagOf m .report
    human := flagOf m .human
    file_name := flagOf m .file_name
    sort := so
    dirs_first := flagOf m .dirs_first
    threads := th
    unit := un
    completions := rawOf m .completions
    dirs_only := flagOf m .dirs_only
    no_color := flagOf m .no_color
    no_config := flagOf m .no_config
    suppress_size := flagOf m .suppress_size
    stdin_is_tty := stdinIsTty
    stdout_is_tty := stdoutIsTty
    max_du_width := 0
    max_nlink_width := 0 }

/-- Validate fully and convert: the grammar's single validation entry
    point used at every exit of `Context::init`. -/
def validatedCtx (m : Matches) : Except ParseError Ctx := do
  validate m
  fromArgMatches m

/-- Modelled from the spec: `crate::utils::uniq` (outside `src/`),
    deduplication preserving first-seen order. -/
def uniq (l : List ArgId) : List ArgId :=
  l.foldl (fun acc x => if x ∈ acc then acc else acc ++ [x]) []

/-- Were any arguments supplied on the command line? Modelled from the
    spec: "the user supplied no tokens at all (bare invocation)" — some
    entry has command-line source. -/
def argsPresent (m : Matches) : Bool :=
  m.any (fun p => p.2.source = .commandLine)

/-- `Context::pick_args_from`: re-synthesize the raw tokens of one winning
    identifier. The flag spelling is re-derived with underscores replaced
    by hyphens; a `[flag, "false"]` pair is dropped entirely; a remaining
    literal "true" value token is dropped, keeping the flag. -/
def pick_args_from (id : ArgId) (m : Matches) (args : List OsString) :
    List OsString :=
  match findId m id with
  | none => args
  | some e =>
      let raw_args :=
        ((((e.values.map (fun s => [osStr "--" ++ kebabOf id, s])).filter
              (fun pair => pair.getD 1 [] ≠ osStr "false")).flatten).filter
          (fun s => s ≠ osStr "true"))
      args ++ raw_args

/-- One iteration of the reconciliation loop of `Context::init`: the
    positional `dir`, when present in the user matches, contributes its
    raw bytes verbatim; every other identifier is picked from the user
    matches when its source is the command line and from the config
    matches otherwise. -/
def mergeStep (userM cfgM : Matches) (args : List OsString) (id : ArgId) :
    List OsString :=
  if id = .dir ∧ (findId userM .dir).isSome then
    args ++ (((findId userM .dir).map MatchEntry.values).getD [])
  else
    match findId userM id with
    | some e =>
        match e.source with
        | .commandLine => pick_args_from id userM args
        | _ => pick_args_from id cfgM args
    | none => pick_args_from id cfgM args

/-- The identifiers reconciled by the loop: union of both sources'
    identifiers, deduplicated preserving first-seen order. -/
def mergeIds (userM cfgM : Matches) : List ArgId :=
  uniq (userM.map Prod.fst ++ cfgM.map Prod.fst)

/-- The full re-synthesized token sequence. -/
def mergeArgs (userM cfgM : Matches) : List OsString :=
  (mergeIds userM cfgM).foldl (mergeStep userM cfgM) []

/-- The config-present arm of `Context::init`: bare invocation returns
    the validated config token set alone; otherwise the reconciled token
    sequence goes through the second, full grammar parse, whose errors
    are the configuration errors surfaced to the caller. -/
def initWithConfig (userM : Matches) (cfgTs : List OsString) :
    Except Error Ctx :=
  match parseRaw false cfgTs with
  | .error e => .error (.config e)
  | .ok cfgM =>
      if ¬ argsPresent userM then
        (validatedCtx cfgM).mapError .config
      else
        match parseRaw false (mergeArgs userM cfgM) with
        | .error e => .error (.config e)
        | .ok merged => (validatedCtx merged).mapError .config

/-- `Context::init`, with the live token sequence and the optional
    config-file token sequence (the external Config Source Reader already
    tokenized; absent or unreadable file = `none`) passed explicitly.
    The leading argv[0] placeholder of the Rust code is outside the token
    sequences. Errors of the short-circuit and config-free exits are
    argument-parse errors; errors of the config exits are configuration
    errors. -/
def init (userTokens : List OsString) (configTokens : Option (List OsString)) :
    Except Error Ctx :=
  match parseRaw true userTokens with
  | .error e => .error (.argParse e)
  | .ok userM =>
      if flagOf userM .no_config then
        (validatedCtx userM).mapError .argParse
      else
        match configTokens with
        | some cfgTs => initWithConfig userM cfgTs
        | none => (validatedCtx userM).mapError .argParse

/-- Is a code unit a valid Unicode scalar value? -/
def isScalar (c : Nat) : Bool := c < 55296 ∨ (57344 ≤ c ∧ c < 1114112)

/-- Lossy name-to-text conversion (`OsStr::to_string_lossy`): code units
    that are not valid text become the replacement character U+FFFD. -/
def lossy (s : OsString) : OsString :=
  s.map (fun c => if isScalar c then c else 65533)

/-- One compiled regex atom. -/
inductive RTok where
  | lit (c : Nat)
  | anyChar
  | endAnchor
deriving DecidableEq, Repr

/-- Modelled from the spec: compilation by the external regex capability,
    restricted to the constructs the spec exercises (literals, backslash
    escapes, `.`, the `$` end anchor); a trailing lone backslash is a
    compile error. -/
def compileRegex : List Nat → Option (List RTok)
  | [] => some []
  | 92 :: [] => none
  | 92 :: c :: rest => (compileRegex rest).map (RTok.lit c :: ·)
  | 46 :: rest => (compileRegex rest).map (RTok.anyChar :: ·)
  | 36 :: rest => (compileRegex rest).map (RTok.endAnchor :: ·)
  | c :: rest => (compileRegex rest).map (RTok.lit c :: ·)

/-- Match a compiled atom sequence against the front of a string. -/
def matchToks : List RTok → List Nat → Bool
  | [], _ => true
  | .endAnchor :: ts, [] => matchToks ts []
  | .endAnchor :: _, _ :: _ => false
  | .lit _ :: _, [] => false
  | .lit c :: ts, x :: s => x = c ∧ matchToks ts s
  | .anyChar :: _, [] => false
  | .anyChar :: ts, _ :: s => matchToks ts s

/-- Unanchored search: does the compiled regex match at some position? -/
def searchToks (re : List RTok) : List Nat → Bool
  | [] => matchToks re []
  | c :: s => matchToks re (c :: s) || searchToks re s

/-- Raw file-type of a filesystem handle (`std::fs::FileType`). -/
inductive FType where
  | dir
  | file
  | symlink
  | fifo
  | socket
  | charDevice
  | blockDevice
deriving DecidableEq, Repr

/-- A filesystem handle yielded by traversal (`ignore::DirEntry`): path,
    file name, depth, and raw file type (which the platform may fail to
    report). -/
structure DirEntryM where
  path : OsString
  fileName : OsString
  depth : Nat
  fileType : Option FType
deriving DecidableEq, Repr

/-- `Context::regex_predicate`: fails while glob or iglob mode is active,
    fails when no pattern was supplied, otherwise compiles the pattern and
    returns the predicate that unconditionally accepts directories and,
    for non-directories, accepts exactly the entries whose lossy file name
    matches the compiled pattern. -/
def regex_predicate (c : Ctx) : Except Error (DirEntryM → Bool) :=
  if c.iglob || c.glob then
    .error .regexDisabled
  else
    match c.pattern with
    | none => .error .patternNotProvided
    | some pat =>
        match compileRegex pat with
        | none => .error .regexError
        | some re =>
            .ok (fun de =>
              if (de.fileType.map (fun ft => decide (ft = FType.dir))).getD false then
                true
              else
                searchToks re (lossy de.fileName))

/-- Modelled from the spec: `crate::utils::num_integral` (outside `src/`),
    the number of integral (decimal) digits of a number. -/
def numIntegral (n : Nat) : Nat := (Nat.toDigits 10 n).length

/-- `Context::set_max_du_width`: a zero size leaves the Parameter Set
    untouched; otherwise `max_du_width` becomes the digit count of the
    size. -/
def set_max_du_width (c : Ctx) (size : Nat) : Ctx :=
  if size = 0 then c else { c with max_du_width := numIntegral size }

/-- `Context::set_max_nlink_width`. -/
def set_max_nlink_width (c : Ctx) (nlink : Nat) : Ctx :=
  { c with max_nlink_width := numIntegral nlink }

/-- Metadata reported by the OS for one entry (`std::fs::Metadata`); the
    snapshot builder consumes its reported length. -/
structure MetadataM where
  len : Nat
deriving DecidableEq, Repr

/-- Inode identity (`fs::inode::Inode`), platform-dependent. -/
structure InodeM where
  ino : Nat
  dev : Nat
  nlink : Nat
deriving DecidableEq, Repr

/-- An ANSI style descriptor (abstract). -/
structure StyleV where
  code : Nat
deriving DecidableEq, Repr

/-- The unstyled default style (`Style::default()`). -/
def StyleV.styleDefault : StyleV := ⟨0⟩

/-- Resolved file size (`disk_usage::file_size::FileSize`, outside
    `src/`). Modelled from the spec: the metadata-reported or on-disk
    byte count together with the configured unit system and decimal
    scale. -/
structure FileSizeM where
  bytes : Nat
  unitKind : PrefixKind
  scale : Nat
deriving DecidableEq, Repr

/-- Logical size: the metadata-reported length (`FileSize::logical`). -/
def FileSizeM.logical (md : MetadataM) (u : PrefixKind) (s : Nat) : FileSizeM :=
  ⟨md.len, u, s⟩

/-- Platform facts about one filesystem handle, supplied to the snapshot
    builder: the outcome of each platform lookup the builder performs.
    `symlinkTarget` models `fs::symlink_target` (absence is not an error);
    `metadata` models `DirEntry::metadata` (absence is fatal);
    `lsColors` models `get_ls_colors()` (the color-scheme table, `none`
    when loading the table failed); `physicalSize` models
    `FileSize::physical` (may be unavailable even for a regular file);
    `inode` models `Inode::try_from(&metadata).ok()`; `xattrs` models the
    platform extended-attribute lookup. -/
structure FsEnv where
  entry : DirEntryM
  symlinkTarget : Option OsString
  metadata : Option MetadataM
  lsColors : Option (OsString → MetadataM → Option StyleV)
  physicalSize : Option Nat
  inode : Option InodeM
  xattrs : Option (List OsString)

/-- Errors of the snapshot builder (`tree::error::Error`): a failed
    metadata fetch is fatal for the entry. -/
inductive NodeError where
  | metadataError
deriving DecidableEq, Repr

/-- The Entry Snapshot: the `Node` struct of
    `src/render/tree/node/mod.rs`, field for field. -/
structure Node where
  dir_entry : DirEntryM
  metadata : MetadataM
  file_size : Option FileSizeM
  style : Option StyleV
  symlink_target : Option OsString
  inode : Option InodeM
  xattrs : Option (List OsString)
deriving Repr

/-- `Node::is_symlink`: symlink-target presence is the sole witness. -/
def Node.is_symlink (n : Node) : Bool := n.symlink_target.isSome

/-- `Node::file_type`. -/
def Node.file_type (n : Node) : Option FType := n.dir_entry.fileType

/-- `Node::is_dir`. -/
def Node.is_dir (n : Node) : Bool :=
  (n.file_type.map (fun ft => decide (ft = FType.dir))).getD false

/-- `Node::set_file_size`: the one deferred back-fill. -/
def Node.set_file_size (n : Node) (size : FileSizeM) : Node :=
  { n with file_size := some size }

/-- `Node::try_from((DirEntry, &Context))`: resolve the symlink target,
    fetch metadata (fatal on failure), resolve the style against the
    color-scheme table (an unloadable table yields no style; a loaded
    table falls back to the unstyled default on a missed lookup), compute
    the file size only for an unsuppressed regular file (logical from the
    metadata length, physical from the platform, possibly unavailable),
    resolve the inode, and fetch extended attributes only in long
    format. -/
def Node.try_from (env : FsEnv) (ctx : Ctx) : Except NodeError Node := do
  let link_target := env.symlinkTarget
  match env.metadata with
  | none => throw .metadataError
  | some metadata =>
      let style := env.lsColors.map (fun tbl =>
        ((tbl env.entry.path metadata).map id).getD StyleV.styleDefault)
      let file_type := env.entry.fileType
      let file_size :=
        match file_type with
        | some ft =>
            if ft = FType.file ∧ ¬ ctx.suppress_size then
              match ctx.disk_usage with
              | .logical => some (FileSizeM.logical metadata ctx.unit ctx.scale)
              | .physical => env.physicalSize.map (fun b => ⟨b, ctx.unit, ctx.scale⟩)
            else none
        | none => none
      let inode := env.inode
      let xattrs := if ctx.long then env.xattrs else none
      return ⟨env.entry, metadata, file_size, style, link_target, inode, xattrs⟩

/-- The Parameter Set produced when every identifier takes its grammar
    default. -/
def defaultCtx : Ctx :=
  { dir := none, disk_usage := .logical, hidden := false, no_git := false,
    no_ignore := false, follow := false, icons := false, level := none,
    long := false, pattern := none, glob := false, iglob := false,
    prune := false, scale := 2, report := false, human := false,
    file_name := false, sort := .noSort, dirs_first := false, threads := 3,
    unit := .bin, completions := none, dirs_only := false, no_color := false,
    no_config := false, suppress_size := false, stdin_is_tty := stdinIsTty,
    stdout_is_tty := stdoutIsTty, max_du_width := 0, max_nlink_width := 0 }

/-- Command line setting every parameter explicitly. -/
def cliAll : List OsString :=
  [osStr "--disk-usage", osStr "physical", osStr "--hidden", osStr "--no-git",
   osStr "--no-ignore", osStr "--follow", osStr "--icons", osStr "--level",
   osStr "4", osStr "--long", osStr "--pattern", osStr "x", osStr "--glob",
   osStr "--prune", osStr "--scale", osStr "5", osStr "--report",
   osStr "--human", osStr "--file-name", osStr "--sort", osStr "size",
   osStr "--dirs-first", osStr "--threads", osStr "9", osStr "--unit",
   osStr "si", osStr "--completions", osStr "bash", osStr "--dirs-only",
   osStr "--no-color", osStr "--suppress-size", osStr "dirA"]

/-- Config tokens conflicting with `cliAll` on every value parameter. -/
def cfgConflicting : List OsString :=
  [osStr "--disk-usage", osStr "logical", osStr "--level", osStr "2",
   osStr "--pattern", osStr "y", osStr "--scale", osStr "7", osStr "--sort",
   osStr "name", osStr "--threads", osStr "1", osStr "--unit", osStr "bin",
   osStr "--completions", osStr "zsh", osStr "dirB"]

/-- Expected resolution of `cliAll` against `cfgConflicting`: every
    command-line value wins. -/
def ctxCliWins : Ctx :=
  { dir := some (osStr "dirA"), disk_usage := .physical, hidden := true,
    no_git := true, no_ignore := true, follow := true, icons := true,
    level := some 4, long := true, pattern := some (osStr "x"), glob := true,
    iglob := false, prune := true, scale := 5, report := true, human := true,
    file_name := true, sort := .size, dirs_first := true, threads := 9,
    unit := .si, completions := some (osStr "bash"), dirs_only := true,
    no_color := true, no_config := false, suppress_size := true,
    stdin_is_tty := stdinIsTty, stdout_is_tty := stdoutIsTty,
    max_du_width := 0, max_nlink_width := 0 }

/-- Config tokens setting every parameter except `icons` (and no
    positional directory). -/
def cfgAll : List OsString :=
  [osStr "--disk-usage", osStr "physical", osStr "--hidden", osStr "--no-git",
   osStr "--level", osStr "2", osStr "--pattern", osStr "y", osStr "--iglob",
   osStr "--scale", osStr "7", osStr "--sort", osStr "size",
   osStr "--dirs-first", osStr "--threads", osStr "9", osStr "--unit",
   osStr "si", osStr "--suppress-size", osStr "--long", osStr "--follow",
   osStr "--no-ignore", osStr "--prune", osStr "--report", osStr "--human",
   osStr "--file-name", osStr "--dirs-only", osStr "--no-color",
   osStr "--completions", osStr "zsh"]

/-- Expected resolution of `["--icons"]` against `cfgAll`: every config
    value is adopted, the one command-line flag stays. -/
def ctxCfgWins : Ctx :=
  { dir := none, disk_usage := .physical, hidden := true, no_git := true,
    no_ignore := true, follow := true, icons := true, level := some 2,
    long := true, pattern := some (osStr "y"), glob := false, iglob := true,
    prune := true, scale := 7, report := true, human := true,
    file_name := true, sort := .size, dirs_first := true, threads := 9,
    unit := .si, completions := some (osStr "zsh"), dirs_only := true,
    no_color := true, no_config := false, suppress_size := true,
    stdin_is_tty := stdinIsTty, stdout_is_tty := stdoutIsTty,
    max_du_width := 0, max_nlink_width := 0 }

/-- A directory value that is not valid text (contains a surrogate code
    unit, outside the image of `osStr`). -/
def rawDir : OsString := [55296, 0, 7]

/-- Modelled from the spec: the result of validating and parsing the
    config token set alone — config as the sole source. Stated from the
    spec's words for the refinement claim about bare invocations. -/
def configAlone (cfgTs : List OsString) : Except Error Ctx :=
  match parseRaw false cfgTs with
  | .error e => .error (.config e)
  | .ok m => (validatedCtx m).mapError .config

/-- The matches of an empty token sequence: grammar defaults only. -/
def defaultMatches : Matches := addDefaults []

/-- A Parameter Set requesting the regex pattern `\.rs$`. -/
def rsCtx : Ctx := { defaultCtx with pattern := some (osStr "\\.rs$") }

/-- A directory entry named `src`. -/
def eSrc : DirEntryM := ⟨osStr "/a/src", osStr "src", 1, some .dir⟩

/-- A regular-file entry named `main.rs`. -/
def eRs : DirEntryM := ⟨osStr "/a/main.rs", osStr "main.rs", 1, some .file⟩

/-- A regular-file entry named `main.py`. -/
def ePy : DirEntryM := ⟨osStr "/a/main.py", osStr "main.py", 1, some .file⟩

/-- A regular-file handle for the snapshot fixtures. -/
def fileEntry : DirEntryM := ⟨osStr "/a/f.txt", osStr "f.txt", 1, some .file⟩

/-- A directory handle for the snapshot fixtures. -/
def dirEntryFx : DirEntryM := ⟨osStr "/a/d", osStr "d", 1, some .dir⟩

/-- A color-scheme table that never matches. -/
def emptyTbl : OsString → MetadataM → Option StyleV := fun _ _ => none

/-- Platform facts: regular file, physical size unavailable, no
    color-scheme table, no symlink target. -/
def envPhysUnavailable : FsEnv :=
  ⟨fileEntry, none, some ⟨42⟩, none, none, none, none⟩

/-- A Parameter Set in physical disk-usage mode. -/
def ctxPhysical : Ctx := { defaultCtx with disk_usage := .physical }

/-- Expected snapshot of `envPhysUnavailable` under `ctxPhysical`. -/
def nodePhysUnavailable : Node := ⟨fileEntry, ⟨42⟩, none, none, none, none, none⟩

/-- Platform facts for a plain directory, color-scheme table failed to
    load. -/
def envDirPlain : FsEnv := ⟨dirEntryFx, none, some ⟨7⟩, none, none, none, none⟩

/-- Expected snapshot of `envDirPlain` under the default Parameter Set. -/
def nodeDirPlain : Node := ⟨dirEntryFx, ⟨7⟩, none, none, none, none, none⟩

/-- Platform facts for a regular file with a loaded, never-matching
    color-scheme table. -/
def envStyled : FsEnv := ⟨fileEntry, none, some ⟨42⟩, some emptyTbl, none, none, none⟩

/-- Expected snapshot of `envStyled` under the default Parameter Set. -/
def nodeStyled : Node :=
  ⟨fileEntry, ⟨42⟩, some ⟨42, .bin, 2⟩, some StyleV.styleDefault, none, none, none⟩

/-- C7: at construction time `file_size` is `None` whenever the entry's
    file type is not a regular file (in particular every directory) or
    size display is suppressed; a computed logical size is the
    metadata-reported length, while physical mode may yield `None` even
    for a regular file. -/
theorem c7_file_size_invariant :
    (∀ (env : FsEnv) (ctx : Ctx) (n : Node),
        Node.try_from env ctx = .ok n →
        (n.file_type ≠ some FType.file ∨ ctx.suppress_size = true) →
        n.file_size = none)
    ∧ (∀ (env : FsEnv) (ctx : Ctx) (n : Node) (md : MetadataM),
        Node.try_from env ctx = .ok n → env.metadata = some md →
        n.file_type = some FType.file → ctx.suppress_size = false →
        ctx.disk_usage = DiskUsage.logical →
        n.file_size = some (FileSizeM.logical md ctx.unit ctx.scale))
    ∧ (∃ (env : FsEnv) (ctx : Ctx) (n : Node),
        Node.try_from env ctx = .ok n ∧ n.file_type = some FType.file ∧
        ctx.suppress_size = false ∧ ctx.disk_usage = DiskUsage.physical ∧
        n.file_size = none) := by
  refine ⟨?_, ?_, ?_⟩
  · intro env ctx n h hcase
    unfold Node.try_from at h
    cases hmd : env.metadata with
    | none => simp [hmd] at h
    | some md =>
      simp only [hmd] at h
      simp only [Except.ok.injEq, pure, Except.pure] at h
      subst h
      rcases hcase with hft | hsup
      · simp only [Node.file_type] at hft
        cases hh : env.entry.fileType with
        | none => simp [Node.file_size, hh]
        | some ft =>
          have hne : ¬ ft = FType.file := by
            intro hc; exact hft (by simp [hh, hc])
          simp [Node.file_size, hh, hne]
      · cases hh : env.entry.fileType with
        | none => simp [Node.file_size, hh]
        | some ft => simp [Node.file_size, hh, hsup]
  · intro env ctx n md h hmd hft hsup hdu
    unfold Node.try_from at h
    simp only [hmd] at h
    simp only [Except.ok.injEq, pure, Except.pure] at h
    subst h
    simp only [Node.file_type] at hft
    simp [Node.file_size, hft, hsup, hdu]
  · exact ⟨envPhysUnavailable, ctxPhysical, nodePhysUnavailable,
      rfl, rfl, rfl, rfl, rfl⟩

/-- Witness for C7 at concrete inputs: a directory snapshot and a
    suppressed-free regular file in logical mode. -/
theorem c7_file_size_invariant_witness :
    nodeDirPlain.file_size = none ∧
    nodeStyled.file_size = some (FileSizeM.logical ⟨42⟩ PrefixKind.bin 2) :=
  ⟨c7_file_size_invariant.1 envDirPlain defaultCtx nodeDirPlain rfl
      (Or.inl (by decide)),
   c7_file_size_invariant.2.1 envStyled defaultCtx nodeStyled ⟨42⟩
      rfl rfl rfl rfl rfl⟩

/-- C8: symlink-target presence is the sole witness of being a symlink:
    the is-symlink query returns true exactly when `symlink_target` is
    `Some`, the constructed snapshot stores exactly the platform lookup's
    result, and absence of a target is not an error. -/
theorem c8_symlink_sole_witness :
    (∀ n : Node, n.is_symlink = n.symlink_target.isSome)
    ∧ (∀ (env : FsEnv) (ctx : Ctx) (n : Node),
        Node.try_from env ctx = .ok n →
        n.symlink_target = env.symlinkTarget)
    ∧ (∃ (env : FsEnv) (ctx : Ctx) (n : Node),
        env.symlinkTarget = none ∧ Node.try_from env ctx = .ok n ∧
        n.is_symlink = false) := by
  refine ⟨fun n => rfl, ?_, ?_⟩
  · intro env ctx n h
    unfold Node.try_from at h
    cases hmd : env.metadata with
    | none => simp [hmd] at h
    | some md =>
      simp only [hmd] at h
      simp only [Except.ok.injEq, pure, Except.pure] at h
      subst h
      rfl
  · exact ⟨envDirPlain, defaultCtx, nodeDirPlain, rfl, rfl, rfl⟩

/-- Witness for C8 at a concrete snapshot. -/
theorem c8_symlink_sole_witness_witness :
    nodeDirPlain.symlink_target = envDirPlain.symlinkTarget :=
  c8_symlink_sole_witness.2.1 envDirPlain defaultCtx nodeDirPlain rfl

/-- C9: when the color-scheme table fails to load the snapshot is still
    constructed but its style is `None`; when the table is available the
    style is the lookup's result, falling back to the unstyled default
    exactly on a missed lookup. -/
theorem c9_style_table_failure :
    (∀ (env : FsEnv) (ctx : Ctx) (n : Node),
        Node.try_from env ctx = .ok n → env.lsColors = none →
        n.style = none)
    ∧ (∀ (env : FsEnv) (ctx : Ctx) (n : Node)
        (tbl : OsString → MetadataM → Option StyleV) (md : MetadataM),
        Node.try_from env ctx = .ok n → env.lsColors = some tbl →
        env.metadata = some md →
        n.style = some ((tbl env.entry.path md).getD StyleV.styleDefault)) := by
  constructor
  · intro env ctx n h hls
    unfold Node.try_from at h
    cases hmd : env.metadata with
    | none => simp [hmd] at h
    | some md =>
      simp only [hmd] at h
      simp only [Except.ok.injEq, pure, Except.pure] at h
      subst h
      simp [Node.style, hls]
  · intro env ctx n tbl md h hls hmd
    unfold Node.try_from at h
    simp only [hmd] at h
    simp only [Except.ok.injEq, pure, Except.pure] at h
    subst h
    simp [Node.style, hls]

/-- Witness for C9 at concrete snapshots: failed table yields no style;
    loaded never-matching table yields the unstyled default. -/
theorem c9_style_table_failure_witness :
    nodeDirPlain.style = none ∧
    nodeStyled.style = some ((emptyTbl fileEntry.path ⟨42⟩).getD StyleV.styleDefault) :=
  ⟨c9_style_table_failure.1 envDirPlain defaultCtx nodeDirPlain rfl rfl,
   c9_style_table_failure.2 envStyled defaultCtx nodeStyled emptyTbl ⟨42⟩
      rfl rfl rfl⟩

/-- C10: the max-disk-usage-width setter is a no-op (on every field) for
    size zero, and for nonzero size it sets `max_du_width` to the digit
    count of the size and changes no other field. -/
theorem c10_set_max_du_width_frame :
    (∀ c : Ctx, set_max_du_width c 0 = c)
    ∧ (∀ (c : Ctx) (size : Nat), size ≠ 0 →
        set_max_du_width c size = { c with max_du_width := numIntegral size }) := by
  constructor
  · intro c; rfl
  · intro c size h
    simp [set_max_du_width, h]

/-- Witness for C10 at a concrete Parameter Set and size. -/
theorem c10_set_max_du_width_frame_witness :
    (1000 ≠ 0) ∧
    set_max_du_width defaultCtx 1000 = { defaultCtx with max_du_width := numIntegral 1000 } :=
  ⟨by decide, c10_set_max_du_width_frame.2 defaultCtx 1000 (by decide)⟩

set_option maxRecDepth 100000

/-- C2: inter-parameter dependencies are enforced on the merged result by
    the second full parse, regardless of which source supplied each side:
    `["--no-git"]` against a config supplying `hidden` resolves
    successfully, while `["--no-git"]` with no config fails with a
    dependency error before any traversal. -/
theorem c2_split_dependency_enforcement :
    init [osStr "--no-git"] (some [osStr "--hidden"]) =
      .ok { defaultCtx with no_git := true, hidden := true }
    ∧ init [osStr "--no-git"] none =
      .error (.argParse (.missingRequired .no_git .hidden)) :=
  ⟨rfl, rfl⟩

/-- C1: per-identifier precedence of configuration resolution — an
    identifier set explicitly on the command line resolves to the
    command-line value regardless of any conflicting config value; one
    absent from the command line but present in config resolves to the
    config value; one absent from both takes the grammar default. Stated
    on the reconciliation step for arbitrary matches and end-to-end on
    scenarios covering every identifier. -/
theorem c1_cli_precedence_over_config :
    (∀ (userM cfgM : Matches) (args : List OsString) (id : ArgId)
        (e : MatchEntry),
        id ≠ ArgId.dir → findId userM id = some e →
        e.source = ValueSource.commandLine →
        mergeStep userM cfgM args id = pick_args_from id userM args)
    ∧ (∀ (userM cfgM : Matches) (args : List OsString) (id : ArgId),
        id ≠ ArgId.dir →
        (∀ e, findId userM id = some e → e.source = ValueSource.defaultValue) →
        mergeStep userM cfgM args id = pick_args_from id cfgM args)
    ∧ init cliAll (some cfgConflicting) = .ok ctxCliWins
    ∧ init [osStr "--icons"] (some cfgAll) = .ok ctxCfgWins
    ∧ init [osStr "--icons"] (some []) = .ok { defaultCtx with icons := true } := by
  refine ⟨?_, ?_, rfl, rfl, rfl⟩
  · intro userM cfgM args id e hne hf hs
    unfold mergeStep
    rw [if_neg (fun hc => hne hc.1)]
    simp [hf, hs]
  · intro userM cfgM args id hne hall
    unfold mergeStep
    rw [if_neg (fun hc => hne hc.1)]
    cases hf : findId userM id with
    | none => simp [hf]
    | some e =>
      have hs := hall e hf
      simp [hf, hs]

/-- Witness for C1's reconciliation statements at concrete matches. -/
theorem c1_cli_precedence_over_config_witness :
    mergeStep [(ArgId.scale, ⟨[osStr "5"], .commandLine⟩)]
        [(ArgId.scale, ⟨[osStr "7"], .commandLine⟩)] [] ArgId.scale
      = pick_args_from ArgId.scale
          [(ArgId.scale, ⟨[osStr "5"], .commandLine⟩)] []
    ∧ mergeStep []
        [(ArgId.scale, ⟨[osStr "7"], .commandLine⟩)] [] ArgId.scale
      = pick_args_from ArgId.scale
          [(ArgId.scale, ⟨[osStr "7"], .commandLine⟩)] [] :=
  ⟨c1_cli_precedence_over_config.1 _ _ [] ArgId.scale ⟨[osStr "5"], .commandLine⟩
      (by decide) rfl rfl,
   c1_cli_precedence_over_config.2.1 _ _ [] ArgId.scale (by decide)
      (fun e he => by simp [findId] at he)⟩

/-- C3: the positional target-directory identifier, when present in the
    user tokens, always wins with its raw bytes copied verbatim (even for
    a value that is not valid text), and is never taken from the config
    token set even when present there (a config-supplied directory makes
    the final parse fail rather than being adopted). -/
theorem c3_dir_positional_verbatim :
    (∀ (userM cfgM : Matches) (args : List OsString) (e : MatchEntry),
        findId userM ArgId.dir = some e →
        mergeStep userM cfgM args ArgId.dir = args ++ e.values)
    ∧ init [rawDir] (some [osStr "/etc"]) =
        .ok { defaultCtx with dir := some rawDir }
    ∧ init [osStr "--icons"] (some [osStr "/etc"]) =
        .error (.config (.unknownArg (osStr "--dir"))) := by
  refine ⟨?_, rfl, rfl⟩
  intro userM cfgM args e hf
  unfold mergeStep
  rw [if_pos ⟨rfl, by simp [hf]⟩]
  simp [hf]

/-- Witness for C3's reconciliation statement at concrete matches. -/
theorem c3_dir_positional_verbatim_witness :
    mergeStep [(ArgId.dir, ⟨[rawDir], .commandLine⟩)]
        [(ArgId.dir, ⟨[osStr "/etc"], .commandLine⟩)] [] ArgId.dir
      = [] ++ [rawDir] :=
  c3_dir_positional_verbatim.1 _ _ [] ⟨[rawDir], .commandLine⟩ rfl

/-- C4: re-synthesized winning tokens use the hyphenated flag spelling, a
    literal "false" pair is dropped entirely, a literal "true" value is
    dropped with the flag retained; hence no token of the re-synthesized
    contribution is a literal "true" or "false" value token. -/
theorem c4_boolean_token_resynthesis :
    (∀ (id : ArgId) (m : Matches) (args : List OsString) (t : OsString),
        t ∈ pick_args_from id m args →
        t ∈ args ∨ (t ≠ osStr "true" ∧ t ≠ osStr "false"))
    ∧ pick_args_from ArgId.hidden
        [(ArgId.hidden, ⟨[osStr "true"], .commandLine⟩)] [] = [osStr "--hidden"]
    ∧ pick_args_from ArgId.hidden
        [(ArgId.hidden, ⟨[osStr "false"], .defaultValue⟩)] [] = []
    ∧ pick_args_from ArgId.no_git
        [(ArgId.no_git, ⟨[osStr "true"], .commandLine⟩)] [] = [osStr "--no-git"]
    ∧ pick_args_from ArgId.dirs_first
        [(ArgId.dirs_first, ⟨[osStr "true"], .commandLine⟩)] [] =
        [osStr "--dirs-first"] := by
  refine ⟨?_, rfl, rfl, rfl, rfl⟩
  intro id m args t ht
  unfold pick_args_from at ht
  split at ht
  · exact Or.inl ht
  · rename_i e heq
    simp only [List.mem_append] at ht
    rcases ht with h | h
    · exact Or.inl h
    · right
      simp only [List.mem_filter, decide_eq_true_eq] at h
      obtain ⟨hmem, htrue⟩ := h
      refine ⟨htrue, ?_⟩
      simp only [List.mem_flatten] at hmem
      obtain ⟨l, hl, htl⟩ := hmem
      simp only [List.mem_filter, decide_eq_true_eq] at hl
      obtain ⟨hlmap, hfalse⟩ := hl
      simp only [List.mem_map] at hlmap
      obtain ⟨s, hsmem, rfl⟩ := hlmap
      simp only [List.mem_cons, List.not_mem_nil, or_false] at htl
      rcases htl with rfl | rfl
      · intro hc
        have h1 : (osStr "--" ++ kebabOf id).head? = some 45 := rfl
        rw [hc] at h1
        exact absurd h1 (by decide)
      · simpa using hfalse

/-- Witness for C4's universal statement at a concrete token. -/
theorem c4_boolean_token_resynthesis_witness :
    osStr "--hidden" ≠ osStr "true" ∧ osStr "--hidden" ≠ osStr "false" :=
  (c4_boolean_token_resynthesis.1 ArgId.hidden
      [(ArgId.hidden, ⟨[osStr "true"], .commandLine⟩)] [] (osStr "--hidden")
      (by decide)).resolve_left (by decide)

/-- C5: a bare invocation (no user tokens) with a present configuration
    file yields exactly the result of validating and parsing the config
    token set alone; the merge path is not taken. -/
theorem c5_bare_invocation_config_alone (cfgTs : List OsString) :
    init [] (some cfgTs) = configAlone cfgTs := by
  show initWithConfig defaultMatches cfgTs = configAlone cfgTs
  unfold initWithConfig configAlone
  cases parseRaw false cfgTs <;> rfl

/-- C6: regex-predicate construction fails with the regex-disabled error
    whenever glob or iglob mode is active, fails with the
    pattern-not-provided error when no pattern was supplied, and otherwise
    yields a predicate accepting every directory unconditionally and, for
    non-directories, exactly the entries whose name matches the pattern
    (pattern `\.rs$`: directory `src` and file `main.rs` accepted, file
    `main.py` rejected). -/
theorem c6_regex_predicate_contract :
    (∀ c : Ctx, (c.glob = true ∨ c.iglob = true) →
        regex_predicate c = .error .regexDisabled)
    ∧ (∀ c : Ctx, c.glob = false → c.iglob = false → c.pattern = none →
        regex_predicate c = .error .patternNotProvided)
    ∧ (∀ (c : Ctx) (f : DirEntryM → Bool) (de : DirEntryM),
        regex_predicate c = .ok f → de.fileType = some FType.dir →
        f de = true)
    ∧ (regex_predicate rsCtx).map (fun f => (f eSrc, f eRs, f ePy)) =
        .ok (true, true, false)
    ∧ regex_predicate { rsCtx with iglob := true } = .error .regexDisabled := by
  refine ⟨?_, ?_, ?_, rfl, rfl⟩
  · intro c h
    unfold regex_predicate
    rcases h with h | h <;> simp [h]
  · intro c hg hig hp
    unfold regex_predicate
    simp [hg, hig, hp]
  · intro c f de h hde
    unfold regex_predicate at h
    split at h
    · exact Except.noConfusion h
    · split at h
      · exact Except.noConfusion h
      · split at h
        · exact Except.noConfusion h
        · rw [Except.ok.injEq] at h
          subst h
          simp [hde]

/-- Witness for C6's universal statements at concrete Parameter Sets. -/
theorem c6_regex_predicate_contract_witness :
    regex_predicate { defaultCtx with glob := true } = .error .regexDisabled
    ∧ regex_predicate defaultCtx = .error .patternNotProvided :=
  ⟨c6_regex_predicate_contract.1 _ (Or.inl rfl),
   c6_regex_predicate_contract.2.1 _ rfl rfl rfl⟩

/-- Witness for C5 at a concrete config token sequence. -/
theorem c5_bare_invocation_config_alone_witness :
    init [] (some [osStr "--hidden"]) = configAlone [osStr "--hidden"] :=
  c5_bare_invocation_config_alone [osStr "--hidden"]
